import Mathlib

/-
Verification of the twytch per-voice synthesis core (mopo namespace).

The development shallowly embeds the two C++ translation units
src/src/twytch_voice_handler.cpp (the modulation-matrix version, treated as
canonical) and src/src/synthesis/twytch_voice_handler.cpp (the formant
version).  Registry/graph state is embedded as association lists over
abstract node identities; signal arithmetic is embedded over exact
rationals.  Processor primitives whose implementations are not part of the
provided sources (Interpolate, Clamp, Inverse, Delay, MidiScale,
VariableAdd plug and unplug, removeProcessor, block evaluation) are
modelled from the specification, as marked on each definition.
-/

namespace mopo

/-- First-match lookup in an association list, modelling std::map find /
count on the string- and pointer-keyed registries of the voice handler. -/
def lookupA {κ α : Type} [DecidableEq κ] : List (κ × α) → κ → Option α
  | [], _ => none
  | (k, v) :: rest, key => if k = key then some v else lookupA rest key

/-- Insert-or-overwrite in an association list, modelling assignment through
std::map operator[] (modulation_lookup_[scale] = modulation_scale). -/
def insertA {κ α : Type} [DecidableEq κ] : List (κ × α) → κ → α → List (κ × α)
  | [], k, v => [(k, v)]
  | (k1, v1) :: rest, k, v =>
      if k1 = k then (k, v) :: rest else (k1, v1) :: insertA rest k v

theorem lookupA_insertA_self {κ α : Type} [DecidableEq κ]
    (l : List (κ × α)) (k : κ) (v : α) :
    lookupA (insertA l k v) k = some v := by
  induction l with
  | nil => simp [insertA, lookupA]
  | cons hd tl ih =>
      obtain ⟨k1, v1⟩ := hd
      by_cases h : k1 = k
      · simp [insertA, h, lookupA]
      · simp [insertA, h, lookupA, ih]

theorem lookupA_insertA_ne {κ α : Type} [DecidableEq κ]
    (l : List (κ × α)) (k k2 : κ) (v : α) (h : k2 ≠ k) :
    lookupA (insertA l k v) k2 = lookupA l k2 := by
  have hne : ¬ k = k2 := fun hk => h hk.symm
  induction l with
  | nil =>
      simp only [insertA, lookupA]
      rw [if_neg hne]
  | cons hd tl ih =>
      obtain ⟨k1, v1⟩ := hd
      by_cases h1 : k1 = k
      · subst h1
        simp only [insertA, if_pos rfl, lookupA]
        rw [if_neg hne, if_neg hne]
      · simp only [insertA, if_neg h1, lookupA]
        by_cases h2 : k1 = k2
        · rw [if_pos h2, if_pos h2]
        · rw [if_neg h2, if_neg h2, ih]

theorem lookupA_mem {κ α : Type} [DecidableEq κ]
    {l : List (κ × α)} {k : κ} {v : α} (h : lookupA l k = some v) :
    (k, v) ∈ l := by
  induction l with
  | nil => simp [lookupA] at h
  | cons hd tl ih =>
      obtain ⟨k1, v1⟩ := hd
      by_cases h1 : k1 = k
      · subst h1
        simp only [lookupA, eq_self_iff_true, if_true, Option.some.injEq] at h
        subst h
        exact List.mem_cons_self _ _
      · simp only [lookupA] at h
        rw [if_neg h1] at h
        exact List.mem_cons_of_mem _ (ih h)

/-- Structural state of one TwytchVoiceHandler, as far as the modulation
matrix observes and mutates it.  Processors, Outputs and Values are
abstract node identities (Nat); `processors` is the voice-private
evaluation list, `modSources` the name-to-Output registry mod_sources_,
`modDestinations` the name-to-accumulator registry mod_destinations_
(an `Option Nat` value models the VariableAdd pointer, `none` being the
null pointer std::map operator[] default-inserts for an unknown key),
`accInputs` maps each accumulator to its current summed input list
(the VariableAdd inputs), `modulationLookup` is modulation_lookup_
(scale-Value identity to the Multiply it created), `multiplyDef` records
for each created Multiply its two plugged inputs (source Output, scale
Value), and `nextId` is the supply of fresh node identities. -/
structure VoiceState where
  processors : List Nat
  modSources : List (String × Nat)
  modDestinations : List (String × Option Nat)
  accInputs : List (Nat × List Nat)
  modulationLookup : List (Nat × Nat)
  multiplyDef : List (Nat × (Nat × Nat))
  nextId : Nat
deriving DecidableEq

/-- Abort conditions of the matrix operations: a failed MOPO_ASSERT, or a
member call through a null accumulator pointer (undefined behaviour in the
C++, kept distinct from an assertion here). -/
inductive MatrixError where
  | assertFailed : MatrixError
  | nullDeref : MatrixError
deriving DecidableEq

/-- TwytchVoiceHandler::connectModulation(from, to, scale): assert `from`
is a registered source and `to` a registered destination, create one
Multiply plugged with the source Output (slot 0) and the scale Value
(slot 1), plugNext it onto the destination accumulator, addProcessor it,
and record it in modulation_lookup_ keyed by the scale identity.
plugNext appending to the VariableAdd input list is modelled from the
spec (accumulator: summing node with a runtime-mutable input set). -/
def connectModulation (srcName dstName : String) (scale : Nat)
    (s : VoiceState) : Except MatrixError VoiceState :=
  match lookupA s.modSources srcName with
  | none => Except.error MatrixError.assertFailed
  | some src =>
    match lookupA s.modDestinations dstName with
    | none => Except.error MatrixError.assertFailed
    | some none => Except.error MatrixError.nullDeref
    | some (some d) =>
        Except.ok { s with
          processors := s.processors ++ [s.nextId],
          accInputs := insertA s.accInputs d
            ((lookupA s.accInputs d).getD [] ++ [s.nextId]),
          modulationLookup := insertA s.modulationLookup scale s.nextId,
          multiplyDef := s.multiplyDef ++ [(s.nextId, (src, scale))],
          nextId := s.nextId + 1 }

/-- TwytchVoiceHandler::disconnectModulation(to, scale): assert the scale
identity is present in modulation_lookup_, removeProcessor the recorded
Multiply, then unplug it from mod_destinations_[to].  Faithful to the
source, the lookup entry is NOT erased.  If `to` is not a registered
destination, std::map operator[] yields a null VariableAdd pointer and the
unplug call dereferences it (nullDeref).  removeProcessor (erase from the
evaluation list) and unplug (drop the node from the accumulator input
list) are modelled from the spec, the framework code being outside the
provided sources. -/
def disconnectModulation (dstName : String) (scale : Nat)
    (s : VoiceState) : Except MatrixError VoiceState :=
  match lookupA s.modulationLookup scale with
  | none => Except.error MatrixError.assertFailed
  | some m =>
    match lookupA s.modDestinations dstName with
    | some (some d) =>
        Except.ok { s with
          processors := s.processors.erase m,
          accInputs := insertA s.accInputs d
            (((lookupA s.accInputs d).getD []).filter (fun x => x ≠ m)) }
    | _ => Except.error MatrixError.nullDeref

/-- Modelled from the spec: evaluating an audio block recomputes processor
buffers in registration order and is a pure function of Values and
upstream Outputs (§5); it mutates no registry and no graph structure, so
on the structural state any number of evaluated blocks acts as the
identity. -/
def evalBlocks (n : Nat) (s : VoiceState) : VoiceState :=
  match n with
  | 0 => s
  | Nat.succ k => evalBlocks k s

theorem evalBlocks_id (n : Nat) (s : VoiceState) : evalBlocks n s = s := by
  induction n with
  | zero => rfl
  | succ k ih => exact ih

/-- Current input list of accumulator `d` (the VariableAdd summed set). -/
def accList (s : VoiceState) (d : Nat) : List Nat :=
  (lookupA s.accInputs d).getD []

/-- Sum of accumulator `d` under a valuation of node outputs, modelling the
VariableAdd summing its inputs for one set of source values. -/
def accSum (val : Nat → ℚ) (s : VoiceState) (d : Nat) : ℚ :=
  ((accList s d).map val).sum

/-- Well-formed structural state: every node stored in an accumulator input
list was allocated before the current fresh identity. -/
def WF (s : VoiceState) : Prop :=
  ∀ p ∈ s.accInputs, ∀ x ∈ p.2, x < s.nextId

instance (s : VoiceState) : Decidable (WF s) := by
  unfold WF; infer_instance

/-- Registered destination pointers are all non-null (true of any state the
voice constructor builds). -/
def NoNullDests (s : VoiceState) : Prop :=
  ∀ p ∈ s.modDestinations, p.2 ≠ none

instance (s : VoiceState) : Decidable (NoNullDests s) := by
  unfold NoNullDests; infer_instance

/-- The registries as the matrix-version constructor leaves them: source
names registered by the constructor, createArticulation, createOscillators
and createFilter; destination names with their accumulators; accumulator
base inputs (cross modulation seeded with the cross_mod Value, osc mix
with oscillator_mix_amount, resonance with the resonance Value; the pitch
and cutoff accumulators start empty).  Nodes carry abstract identities. -/
def initState : VoiceState :=
  { processors := [20, 21, 22, 10, 11, 12, 13, 14],
    modSources := [("pitch wheel", 1), ("mod wheel", 2), ("lfo 1", 3),
                   ("lfo 2", 4), ("step sequencer", 5), ("filter env", 6),
                   ("amplitude env", 7), ("note", 8), ("velocity", 9)],
    modDestinations := [("cross modulation", some 10), ("pitch", some 11),
                        ("osc mix", some 12), ("cutoff", some 13),
                        ("resonance", some 14)],
    accInputs := [(10, [20]), (11, []), (12, [21]), (13, []), (14, [22])],
    modulationLookup := [],
    multiplyDef := [],
    nextId := 23 }

theorem connect_eq (srcName dstName : String) (scale : Nat) (s : VoiceState)
    (src d : Nat)
    (hsrc : lookupA s.modSources srcName = some src)
    (hdst : lookupA s.modDestinations dstName = some (some d)) :
    connectModulation srcName dstName scale s = Except.ok { s with
      processors := s.processors ++ [s.nextId],
      accInputs := insertA s.accInputs d
        ((lookupA s.accInputs d).getD [] ++ [s.nextId]),
      modulationLookup := insertA s.modulationLookup scale s.nextId,
      multiplyDef := s.multiplyDef ++ [(s.nextId, (src, scale))],
      nextId := s.nextId + 1 } := by
  unfold connectModulation
  rw [hsrc, hdst]

theorem disconnect_eq (dstName : String) (scale : Nat) (s : VoiceState)
    (m d : Nat)
    (hlk : lookupA s.modulationLookup scale = some m)
    (hdst : lookupA s.modDestinations dstName = some (some d)) :
    disconnectModulation dstName scale s = Except.ok { s with
      processors := s.processors.erase m,
      accInputs := insertA s.accInputs d
        (((lookupA s.accInputs d).getD []).filter (fun x => x ≠ m)) } := by
  unfold disconnectModulation
  rw [hlk, hdst]

theorem accList_lt_nextId (s : VoiceState) (hwf : WF s) (d : Nat) :
    ∀ x ∈ accList s d, x < s.nextId := by
  intro x hx
  unfold accList at hx
  cases h : lookupA s.accInputs d with
  | none => rw [h] at hx; simp at hx
  | some l =>
      rw [h] at hx
      exact hwf (d, l) (lookupA_mem h) x hx

theorem filter_fresh_restores (s : VoiceState) (hwf : WF s) (d : Nat) :
    (accList s d ++ [s.nextId]).filter (fun x => x ≠ s.nextId) = accList s d := by
  rw [List.filter_append]
  have h1 : (accList s d).filter (fun x => x ≠ s.nextId) = accList s d := by
    rw [List.filter_eq_self]
    intro a ha
    have hlt := accList_lt_nextId s hwf d a ha
    have hne : a ≠ s.nextId := Nat.ne_of_lt hlt
    simp [hne]
  have h2 : ([s.nextId] : List Nat).filter (fun x => x ≠ s.nextId) = [] := by
    simp
  rw [h1, h2, List.append_nil]

/-- C1: for every destination accumulator and every source, calling
connectModulation(from, to, scale) and then, after any number of evaluated
blocks, disconnectModulation(to, scale) returns the destination
accumulator's summed input set, and hence its sum under any fixed
valuation of the source outputs, to exactly its pre-connect state. -/
theorem connect_disconnect_restores (s : VoiceState) (srcName dstName : String)
    (scale src d n : Nat) (hwf : WF s)
    (hsrc : lookupA s.modSources srcName = some src)
    (hdst : lookupA s.modDestinations dstName = some (some d)) :
    ∃ t u, connectModulation srcName dstName scale s = Except.ok t ∧
      disconnectModulation dstName scale (evalBlocks n t) = Except.ok u ∧
      accList u d = accList s d ∧
      ∀ val : Nat → ℚ, accSum val u d = accSum val s d := by
  have hc := connect_eq srcName dstName scale s src d hsrc hdst
  set t : VoiceState := { s with
      processors := s.processors ++ [s.nextId],
      accInputs := insertA s.accInputs d
        ((lookupA s.accInputs d).getD [] ++ [s.nextId]),
      modulationLookup := insertA s.modulationLookup scale s.nextId,
      multiplyDef := s.multiplyDef ++ [(s.nextId, (src, scale))],
      nextId := s.nextId + 1 } with ht
  have hlk : lookupA t.modulationLookup scale = some s.nextId :=
    lookupA_insertA_self _ _ _
  have hdst2 : lookupA t.modDestinations dstName = some (some d) := hdst
  have hd := disconnect_eq dstName scale t s.nextId d hlk hdst2
  have hacc : (lookupA t.accInputs d).getD [] = accList s d ++ [s.nextId] := by
    show (lookupA (insertA s.accInputs d
      ((lookupA s.accInputs d).getD [] ++ [s.nextId])) d).getD [] = _
    rw [lookupA_insertA_self]
    rfl
  rw [hacc, filter_fresh_restores s hwf d] at hd
  set u : VoiceState := { t with
      processors := t.processors.erase s.nextId,
      accInputs := insertA t.accInputs d (accList s d) } with hu
  have hul : accList u d = accList s d := by
    show (lookupA (insertA t.accInputs d (accList s d)) d).getD [] = accList s d
    rw [lookupA_insertA_self]
    rfl
  exact ⟨t, u, hc, by rw [evalBlocks_id]; exact hd, hul,
    fun val => by unfold accSum; rw [hul]⟩

theorem connect_disconnect_restores_witness :
    WF initState ∧
    lookupA initState.modSources ("lfo 1") = some 3 ∧
    lookupA initState.modDestinations ("cutoff") = some (some 13) ∧
    (∃ t u, connectModulation ("lfo 1") ("cutoff") 103 initState = Except.ok t ∧
      disconnectModulation ("cutoff") 103 (evalBlocks 2 t) = Except.ok u ∧
      accList u 13 = accList initState 13 ∧
      ∀ val : Nat → ℚ, accSum val u 13 = accSum val initState 13) :=
  ⟨by decide, by decide, by decide,
    connect_disconnect_restores initState ("lfo 1") ("cutoff") 103 3 13 2
      (by decide) (by decide) (by decide)⟩

/-- C2: for a registered source name and destination name,
connectModulation(from, to, scale) creates exactly one new Multiply node
whose two inputs are the source Output and the scale Value, appends that
node to the destination accumulator's input list, adds it to the voice's
processor list, and records it in modulation_lookup keyed by the scale
identity; every other accumulator and every registry is unchanged. -/
theorem connectModulation_spec (srcName dstName : String) (scale : Nat)
    (s : VoiceState) (src d : Nat)
    (hsrc : lookupA s.modSources srcName = some src)
    (hdst : lookupA s.modDestinations dstName = some (some d)) :
    ∃ t, connectModulation srcName dstName scale s = Except.ok t ∧
      t.processors = s.processors ++ [s.nextId] ∧
      t.multiplyDef = s.multiplyDef ++ [(s.nextId, (src, scale))] ∧
      accList t d = accList s d ++ [s.nextId] ∧
      (∀ d2, d2 ≠ d → lookupA t.accInputs d2 = lookupA s.accInputs d2) ∧
      t.modulationLookup = insertA s.modulationLookup scale s.nextId ∧
      lookupA t.modulationLookup scale = some s.nextId ∧
      t.modSources = s.modSources ∧
      t.modDestinations = s.modDestinations ∧
      t.nextId = s.nextId + 1 := by
  refine ⟨_, connect_eq srcName dstName scale s src d hsrc hdst,
    rfl, rfl, ?_, ?_, rfl, lookupA_insertA_self _ _ _, rfl, rfl, rfl⟩
  · show (lookupA (insertA s.accInputs d
        ((lookupA s.accInputs d).getD [] ++ [s.nextId])) d).getD [] = _
    rw [lookupA_insertA_self]
    rfl
  · intro d2 hne
    exact lookupA_insertA_ne _ _ _ _ hne

theorem connectModulation_spec_witness :
    lookupA initState.modSources ("lfo 1") = some 3 ∧
    lookupA initState.modDestinations ("cutoff") = some (some 13) ∧
    (∃ t, connectModulation ("lfo 1") ("cutoff") 101 initState = Except.ok t ∧
      t.processors = initState.processors ++ [initState.nextId] ∧
      t.multiplyDef = initState.multiplyDef ++ [(initState.nextId, (3, 101))] ∧
      accList t 13 = accList initState 13 ++ [initState.nextId] ∧
      (∀ d2, d2 ≠ 13 →
        lookupA t.accInputs d2 = lookupA initState.accInputs d2) ∧
      t.modulationLookup = insertA initState.modulationLookup 101 initState.nextId ∧
      lookupA t.modulationLookup 101 = some initState.nextId ∧
      t.modSources = initState.modSources ∧
      t.modDestinations = initState.modDestinations ∧
      t.nextId = initState.nextId + 1) :=
  ⟨by decide, by decide,
    connectModulation_spec ("lfo 1") ("cutoff") 101 initState 3 13
      (by decide) (by decide)⟩

/-- Error projection of a matrix operation result. -/
def errorOf (e : Except MatrixError VoiceState) : Option MatrixError :=
  match e with
  | Except.error x => some x
  | Except.ok _ => none

/-- C3 (amended): connectModulation fails with a fatal assertion exactly
when the source name is missing from mod_sources or the destination name
is missing from mod_destinations, and completes otherwise;
disconnectModulation fails with a fatal assertion exactly when the scale
identity is absent from modulation_lookup, and completes when the scale is
present and the destination name is registered.  (With the scale present
but the destination name unregistered, disconnect dereferences the null
accumulator pointer that std::map operator[] default-inserts, which is
undefined behaviour, not an assertion; see the counterexample.) -/
theorem modulation_assertion_conditions (srcName dstName : String)
    (scale : Nat) (s : VoiceState) (hnn : NoNullDests s) :
    (connectModulation srcName dstName scale s =
        Except.error MatrixError.assertFailed ↔
      lookupA s.modSources srcName = none ∨
      lookupA s.modDestinations dstName = none) ∧
    ((lookupA s.modSources srcName).isSome →
      (lookupA s.modDestinations dstName).isSome →
      ∃ t, connectModulation srcName dstName scale s = Except.ok t) ∧
    (disconnectModulation dstName scale s =
        Except.error MatrixError.assertFailed ↔
      lookupA s.modulationLookup scale = none) ∧
    (∀ m, lookupA s.modulationLookup scale = some m →
      (lookupA s.modDestinations dstName).isSome →
      ∃ u, disconnectModulation dstName scale s = Except.ok u) := by
  have hdst_shape : ∀ v, lookupA s.modDestinations dstName = some v →
      ∃ d, v = some d := by
    intro v hv
    cases v with
    | none => exact absurd rfl (hnn _ (lookupA_mem hv))
    | some d => exact ⟨d, rfl⟩
  refine ⟨?_, ?_, ?_, ?_⟩
  · cases hs : lookupA s.modSources srcName with
    | none => simp [connectModulation, hs]
    | some src =>
        cases hd : lookupA s.modDestinations dstName with
        | none => simp [connectModulation, hs, hd]
        | some v =>
            obtain ⟨d, rfl⟩ := hdst_shape v hd
            simp [connectModulation, hs, hd]
  · intro h1 h2
    obtain ⟨src, hs⟩ := Option.isSome_iff_exists.mp h1
    obtain ⟨v, hd⟩ := Option.isSome_iff_exists.mp h2
    obtain ⟨d, rfl⟩ := hdst_shape v hd
    exact ⟨_, connect_eq srcName dstName scale s src d hs hd⟩
  · cases hl : lookupA s.modulationLookup scale with
    | none => simp [disconnectModulation, hl]
    | some m =>
        cases hd : lookupA s.modDestinations dstName with
        | none => simp [disconnectModulation, hl, hd]
        | some v =>
            obtain ⟨d, rfl⟩ := hdst_shape v hd
            simp [disconnectModulation, hl, hd]
  · intro m hm h2
    obtain ⟨v, hd⟩ := Option.isSome_iff_exists.mp h2
    obtain ⟨d, rfl⟩ := hdst_shape v hd
    exact ⟨_, disconnect_eq dstName scale s m d hm hd⟩

theorem modulation_assertion_conditions_witness :
    NoNullDests initState ∧
    ((connectModulation ("lfo 1") ("cutoff") 104 initState =
        Except.error MatrixError.assertFailed ↔
      lookupA initState.modSources ("lfo 1") = none ∨
      lookupA initState.modDestinations ("cutoff") = none) ∧
    ((lookupA initState.modSources ("lfo 1")).isSome →
      (lookupA initState.modDestinations ("cutoff")).isSome →
      ∃ t, connectModulation ("lfo 1") ("cutoff") 104 initState = Except.ok t) ∧
    (disconnectModulation ("cutoff") 104 initState =
        Except.error MatrixError.assertFailed ↔
      lookupA initState.modulationLookup 104 = none) ∧
    (∀ m, lookupA initState.modulationLookup 104 = some m →
      (lookupA initState.modDestinations ("cutoff")).isSome →
      ∃ u, disconnectModulation ("cutoff") 104 initState = Except.ok u)) :=
  ⟨by decide,
    modulation_assertion_conditions ("lfo 1") ("cutoff") 104 initState (by decide)⟩

/-- C3 counterexample: with scale identity 100 connected from lfo 1 to
cutoff, disconnecting under an unregistered destination name does not
complete without error (and without an assertion firing): std::map
operator[] hands back a null accumulator pointer and the unplug call
dereferences it, contradicting the claim that the operations complete in
every case other than the listed assertion conditions. -/
theorem modulation_unknown_dest_crash :
    errorOf ((connectModulation ("lfo 1") ("cutoff") 100 initState).bind
      (disconnectModulation ("bogus") 100)) = some MatrixError.nullDeref ∧
    Except.toOption (Except.map
      (fun t => (lookupA t.modulationLookup 100).isSome)
      (connectModulation ("lfo 1") ("cutoff") 100 initState)) = some true := by
  decide

/-- C9: after a successful connect with scale identity 102 followed by a
successful disconnect of the same connection, the code leaves the scale
identity in modulation_lookup (the entry is never erased) even though the
Multiply it maps to has been removed from the accumulator's input list and
from the processor list: presence in modulation_lookup does not imply a
live connection, contradicting the claimed invariant. -/
theorem modulation_lookup_stale_after_disconnect :
    Except.toOption (Except.map
      (fun u => ((lookupA u.modulationLookup 102).isSome,
                 decide (23 ∈ accList u 13), decide (23 ∈ u.processors)))
      ((connectModulation ("lfo 1") ("cutoff") 102 initState).bind
        (disconnectModulation ("cutoff") 102))) = some (true, false, false) := by
  decide

/-- TwytchVoiceHandler::createModMatrix: reads the source and destination
registries into two local name vectors, each seeded with an empty first
entry, and discards them; it returns with the voice state untouched. -/
def createModMatrix (s : VoiceState) : VoiceState × List String × List String :=
  let source_names := "" :: s.modSources.map Prod.fst
  let destination_names := "" :: s.modDestinations.map Prod.fst
  (s, source_names, destination_names)

/-- C10: calling createModMatrix leaves the entire voice state unchanged;
it only builds local name lists (an empty name followed by the registered
source names, and likewise for destinations) which are discarded, touching
no registry, processor list or graph structure. -/
theorem createModMatrix_pure (s : VoiceState) :
    (createModMatrix s).1 = s ∧
    (createModMatrix s).2.1 = "" :: s.modSources.map Prod.fst ∧
    (createModMatrix s).2.2 = "" :: s.modDestinations.map Prod.fst :=
  ⟨rfl, rfl, rfl⟩

/-- PITCH_MOD_RANGE, the fixed semitone range scaling the pitch modulation
accumulator. -/
def PITCH_MOD_RANGE : ℚ := 12

/-- MIN_GAIN_DB, lower end of the resonance-driven gain interpolation. -/
def MIN_GAIN_DB : ℚ := -24

/-- MAX_GAIN_DB, upper end of the resonance-driven gain interpolation. -/
def MAX_GAIN_DB : ℚ := 24

/-- Modelled from the spec: MIDI_SIZE, the size of the MIDI note range
(the constant lives in a header outside the provided sources; the spec
fixes only that the keytrack center and the cutoff modulation scale are a
fixed fraction of the MIDI range). -/
def MIDI_SIZE : ℚ := 128

/-- MAX_FEEDBACK_SAMPLES, the hard maximum length of the oscillator
feedback delay buffer, fixed at Delay construction. -/
def MAX_FEEDBACK_SAMPLES : ℚ := 20000

/-- Modelled from the spec: the Interpolate processor blends linearly from
its kFrom input to its kTo input by the kFractional input. -/
def interpolate (a b t : ℚ) : ℚ := a + t * (b - a)

/-- Modelled from the spec: the Clamp processor restricts its input to the
closed range it was constructed with. -/
def clamp (lo hi x : ℚ) : ℚ := max lo (min x hi)

/-- The clamp_mix node: Clamp(0, 1) applied to the oscillator-mix
accumulator sum. -/
def clamp_mix (mixSum : ℚ) : ℚ := clamp 0 1 mixSum

/-- The oscillator_mix_ node: Interpolate from oscillator 1's output to
oscillator 2's output by the clamped mix fraction. -/
def oscillator_mix (osc1 osc2 mixSum : ℚ) : ℚ :=
  interpolate osc1 osc2 (clamp_mix mixSum)

/-- C5: for every oscillator-mix accumulator sum, including sums outside
the unit interval, the mixed output is a defined linear interpolation
whose fraction is clamped to the unit interval before use; at effective
fraction 0 (any sum at most 0) the output is oscillator 1 alone, and at
effective fraction 1 (any sum at least 1) it is oscillator 2 alone. -/
theorem oscillator_mix_spec (osc1 osc2 mixSum : ℚ) :
    0 ≤ clamp_mix mixSum ∧ clamp_mix mixSum ≤ 1 ∧
    oscillator_mix osc1 osc2 mixSum = osc1 + clamp_mix mixSum * (osc2 - osc1) ∧
    (clamp_mix mixSum = 0 → oscillator_mix osc1 osc2 mixSum = osc1) ∧
    (clamp_mix mixSum = 1 → oscillator_mix osc1 osc2 mixSum = osc2) ∧
    (mixSum ≤ 0 → oscillator_mix osc1 osc2 mixSum = osc1) ∧
    (1 ≤ mixSum → oscillator_mix osc1 osc2 mixSum = osc2) := by
  have hmin : clamp_mix mixSum = max 0 (min mixSum 1) := rfl
  refine ⟨?_, ?_, by unfold oscillator_mix interpolate; ring, ?_, ?_, ?_, ?_⟩
  · rw [hmin]; exact le_max_left _ _
  · rw [hmin]; exact max_le (by norm_num) (min_le_right _ _)
  · intro h
    unfold oscillator_mix interpolate
    rw [h]; ring
  · intro h
    unfold oscillator_mix interpolate
    rw [h]; ring
  · intro h
    have h1 : min mixSum 1 = mixSum := min_eq_left (h.trans (by norm_num))
    have h2 : clamp_mix mixSum = 0 := by rw [hmin, h1]; exact max_eq_left h
    unfold oscillator_mix interpolate
    rw [h2]; ring
  · intro h
    have h1 : min mixSum 1 = 1 := min_eq_right h
    have h2 : clamp_mix mixSum = 1 := by rw [hmin, h1]; exact max_eq_right (by norm_num)
    unfold oscillator_mix interpolate
    rw [h2]; ring

theorem oscillator_mix_spec_witness :
    ((-5 : ℚ) ≤ 0 ∧ oscillator_mix 2 3 (-5) = 2) ∧
    ((1 : ℚ) ≤ 2 ∧ oscillator_mix 4 7 2 = 7) :=
  ⟨⟨by norm_num, (oscillator_mix_spec 2 3 (-5)).2.2.2.2.2.1 (by norm_num)⟩,
   ⟨by norm_num, (oscillator_mix_spec 4 7 2).2.2.2.2.2.2 (by norm_num)⟩⟩

/-- The names registered in controls_ by the matrix-version constructor, in
registration order (createArticulation, createOscillators, createFilter). -/
def twytchControls : List String :=
  ["legato", "amp attack", "amp decay", "amp sustain", "amp release",
   "velocity track", "portamento", "portamento type",
   "pitch bend range", "cross modulation", "osc 1 waveform",
   "osc 2 waveform", "osc 2 transpose", "osc 2 tune", "osc mix",
   "osc feedback transpose", "osc feedback amount", "osc feedback tune",
   "lfo 1 waveform", "lfo 1 frequency", "lfo 2 waveform", "lfo 2 frequency",
   "num steps", "step frequency",
   "step seq 00", "step seq 01", "step seq 02", "step seq 03",
   "step seq 04", "step seq 05", "step seq 06", "step seq 07",
   "step seq 08", "step seq 09", "step seq 10", "step seq 11",
   "step seq 12", "step seq 13", "step seq 14", "step seq 15",
   "fil attack", "fil decay", "fil sustain", "fil release",
   "fil env depth", "filter type", "filter saturation", "cutoff",
   "keytrack", "resonance"]

/-- The processors the matrix-version voice registers through
addGlobalProcessor (computed once per block and shared by all voices), by
the names of the variables holding them, in registration order. -/
def twytchGlobalProcessors : List String :=
  ["amplitude_sustain", "center_adjust", "pitch_bend", "base_cutoff",
   "pitch_wheel_amount", "mod_wheel_amount"]

/-- The pitch_bend node: pitch wheel amount times the pitch bend range. -/
def pitch_bend (wheel bendRange : ℚ) : ℚ := wheel * bendRange

/-- The bent_midi node: incoming MIDI plus the pitch bend. -/
def bent_midi (midi wheel bendRange : ℚ) : ℚ := midi + pitch_bend wheel bendRange

/-- The midi_mod node: the fixed pitch-mod range times the pitch
modulation accumulator sum. -/
def midi_mod (modSum : ℚ) : ℚ := PITCH_MOD_RANGE * modSum

/-- The final_midi node: bent MIDI plus scaled pitch modulation; the
shared pitch sum both oscillators consume. -/
def final_midi (midi wheel bendRange modSum : ℚ) : ℚ :=
  bent_midi midi wheel bendRange + midi_mod modSum

/-- The oscillator1_frequency node: MidiScale applied directly to
final_midi (the MidiScale implementation is outside the provided sources,
so the exponential conversion is an abstract function argument). -/
def oscillator1_frequency (midiScale : ℚ → ℚ)
    (midi wheel bendRange modSum : ℚ) : ℚ :=
  midiScale (final_midi midi wheel bendRange modSum)

/-- The oscillator2_transposed node: final_midi plus oscillator 2's
transpose. -/
def oscillator2_transposed (midi wheel bendRange modSum transpose : ℚ) : ℚ :=
  final_midi midi wheel bendRange modSum + transpose

/-- The oscillator2_midi node: transposed MIDI plus oscillator 2's tune. -/
def oscillator2_midi (midi wheel bendRange modSum transpose tune : ℚ) : ℚ :=
  oscillator2_transposed midi wheel bendRange modSum transpose + tune

/-- The oscillator2_frequency node: MidiScale of oscillator2_midi. -/
def oscillator2_frequency (midiScale : ℚ → ℚ)
    (midi wheel bendRange modSum transpose tune : ℚ) : ℚ :=
  midiScale (oscillator2_midi midi wheel bendRange modSum transpose tune)

/-- C6 (amended): the shared oscillator pitch sum equals base MIDI note
plus pitch-wheel times bend-range (a global, once-per-block processor)
plus the pitch modulation accumulator scaled by the fixed 12-semitone
range, converted to frequency by the MIDI-to-frequency scale; oscillator 2
applies its own transpose and fine-tune after the shared sum, while
oscillator 1 consumes the shared sum directly, having no per-oscillator
transpose or tune. -/
theorem shared_pitch_sum_spec (midiScale : ℚ → ℚ)
    (midi wheel bendRange modSum transpose tune : ℚ) :
    final_midi midi wheel bendRange modSum =
      midi + wheel * bendRange + PITCH_MOD_RANGE * modSum ∧
    oscillator1_frequency midiScale midi wheel bendRange modSum =
      midiScale (final_midi midi wheel bendRange modSum) ∧
    oscillator2_frequency midiScale midi wheel bendRange modSum transpose tune =
      midiScale (final_midi midi wheel bendRange modSum + transpose + tune) ∧
    ("pitch_bend") ∈ twytchGlobalProcessors ∧
    ("osc 2 transpose") ∈ twytchControls ∧ ("osc 2 tune") ∈ twytchControls ∧
    ("osc 1 transpose") ∉ twytchControls ∧ ("osc 1 tune") ∉ twytchControls := by
  refine ⟨?_, rfl, rfl, by decide, by decide, by decide, by decide, by decide⟩
  unfold final_midi bent_midi pitch_bend midi_mod
  ring

/-- C6 counterexample: the claim that each oscillator applies its own
transpose and fine-tune after the shared pitch sum fails for oscillator 1:
the voice registers no osc 1 transpose or tune control, and oscillator 1's
frequency is the MIDI scale applied to the shared sum itself (here, with
the scale instantiated as the identity, note 60 with no wheel and no
modulation yields exactly 60, while oscillator 2 at its default transpose
of minus 12 and tune of 0.08 yields 48.08). -/
theorem oscillator1_no_transpose_counterexample :
    ("osc 1 transpose") ∉ twytchControls ∧ ("osc 1 tune") ∉ twytchControls ∧
    oscillator1_frequency (fun m => m) 60 0 2 0 = 60 ∧
    oscillator2_frequency (fun m => m) 60 0 2 0 (-12) (8/100) = 4808/100 := by
  refine ⟨by decide, by decide, ?_, ?_⟩
  · unfold oscillator1_frequency final_midi bent_midi pitch_bend midi_mod
      PITCH_MOD_RANGE
    norm_num
  · unfold oscillator2_frequency oscillator2_midi oscillator2_transposed
      final_midi bent_midi pitch_bend midi_mod PITCH_MOD_RANGE
    norm_num

/-- The center_adjust global Value: minus half the MIDI range. -/
def center_adjust : ℚ := -(MIDI_SIZE / 2)

/-- The note_from_center_ node: center adjust plus the current note. -/
def note_from_center (currentNote : ℚ) : ℚ := center_adjust + currentNote

/-- The current_keytrack node: note distance from center times the
keytrack amount. -/
def current_keytrack (noteFromCenter keytrackAmount : ℚ) : ℚ :=
  noteFromCenter * keytrackAmount

/-- The keytracked_cutoff node: base cutoff plus the keytrack term. -/
def keytracked_cutoff (baseCutoff curKeytrack : ℚ) : ℚ :=
  baseCutoff + curKeytrack

/-- The scaled_envelope node: filter envelope value times the envelope
depth parameter. -/
def scaled_envelope (env depth : ℚ) : ℚ := env * depth

/-- The midi_cutoff node: keytracked cutoff plus the scaled envelope. -/
def midi_cutoff (baseCutoff curKeytrack env depth : ℚ) : ℚ :=
  keytracked_cutoff baseCutoff curKeytrack + scaled_envelope env depth

/-- The cutoff_mod_scale Value: half the MIDI range. -/
def cutoff_mod_scale : ℚ := MIDI_SIZE / 2

/-- The cutoff_modulation_scaled node: cutoff modulation accumulator sum
times the fixed cutoff modulation scale. -/
def cutoff_modulation_scaled (modSum : ℚ) : ℚ := modSum * cutoff_mod_scale

/-- The midi_cutoff_modulated node: midi cutoff plus scaled cutoff
modulation. -/
def midi_cutoff_modulated (baseCutoff curKeytrack env depth modSum : ℚ) : ℚ :=
  midi_cutoff baseCutoff curKeytrack env depth +
    cutoff_modulation_scaled modSum

/-- The frequency_cutoff node: MidiScale of the modulated MIDI cutoff.
The abstract midiScale argument is the same conversion the oscillator
frequency nodes apply. -/
def frequency_cutoff (midiScale : ℚ → ℚ)
    (baseCutoff currentNote keytrackAmount env depth modSum : ℚ) : ℚ :=
  midiScale (midi_cutoff_modulated baseCutoff
    (current_keytrack (note_from_center currentNote) keytrackAmount)
    env depth modSum)

/-- C7: the filter cutoff is computed entirely in MIDI-note space as the
sum of the base cutoff parameter, the keytrack term (the current note's
distance from the fixed center, half the MIDI range, scaled by the
keytrack amount), the filter envelope value scaled by the envelope depth
parameter, and the cutoff modulation accumulator scaled by half the MIDI
range, and the sum is converted to frequency by the same MIDI-to-frequency
scale the oscillators use (the shared midiScale argument of
oscillator1_frequency and oscillator2_frequency). -/
theorem filter_cutoff_spec (midiScale : ℚ → ℚ)
    (baseCutoff currentNote keytrackAmount env depth modSum : ℚ) :
    frequency_cutoff midiScale baseCutoff currentNote keytrackAmount
        env depth modSum =
      midiScale (baseCutoff + (currentNote - MIDI_SIZE / 2) * keytrackAmount +
        env * depth + modSum * (MIDI_SIZE / 2)) := by
  unfold frequency_cutoff midi_cutoff_modulated midi_cutoff
    keytracked_cutoff scaled_envelope cutoff_modulation_scaled
    cutoff_mod_scale current_keytrack note_from_center center_adjust
  exact congrArg midiScale (by ring)

/-- The resonance_sources accumulator: the base resonance Value plus the
connected modulation sum. -/
def resonance_sources (baseResonance modSum : ℚ) : ℚ := baseResonance + modSum

/-- The final_resonance node: ResonanceScale (implementation outside the
provided sources, abstract argument) of the accumulated resonance. -/
def final_resonance (resScale : ℚ → ℚ) (baseResonance modSum : ℚ) : ℚ :=
  resScale (resonance_sources baseResonance modSum)

/-- The decibals node: Interpolate from MIN_GAIN_DB to MAX_GAIN_DB with
the base resonance Value as the fraction input.  Faithful to the
matrix-version source, which plugs the resonance Value, not the
resonance_sources accumulator, into Interpolate::kFractional. -/
def decibals (baseResonance : ℚ) : ℚ :=
  interpolate MIN_GAIN_DB MAX_GAIN_DB baseResonance

/-- The final_gain node: MagnitudeScale (decibels to linear magnitude,
implementation outside the provided sources, abstract argument) of the
decibals node. -/
def final_gain (magScale : ℚ → ℚ) (baseResonance : ℚ) : ℚ :=
  magScale (decibals baseResonance)

/-- The gain path as claim C8 words it, for comparison with the source:
the accumulated (modulated) resonance value interpolated into the decibel
range and then converted to magnitude. -/
def final_gain_claimed (magScale : ℚ → ℚ) (baseResonance modSum : ℚ) : ℚ :=
  magScale (interpolate MIN_GAIN_DB MAX_GAIN_DB
    (resonance_sources baseResonance modSum))

/-- C8 counterexample: the claim that the same modulatable (accumulated)
resonance value drives both derived paths fails in the matrix version: the
gain path interpolates the base resonance Value, not the accumulator.
With the magnitude scale instantiated as the identity, base resonance 1/2
and a live modulation contribution of 3/10, the code's gain path yields
0 dB while the claimed accumulated path yields 14.4 dB. -/
theorem resonance_gain_uses_base_counterexample :
    final_gain (fun x => x) (1/2) = 0 ∧
    final_gain_claimed (fun x => x) (1/2) (3/10) = 72/5 ∧
    final_gain (fun x => x) (1/2) ≠ final_gain_claimed (fun x => x) (1/2) (3/10) := by
  refine ⟨?_, ?_, ?_⟩ <;>
    · simp only [final_gain, final_gain_claimed, decibals, resonance_sources,
        interpolate, MIN_GAIN_DB, MAX_GAIN_DB]
      norm_num

/-- C8 (amended): the single resonance control drives two independent
derived quantities: its accumulated (modulated) value passes through the
resonance-specific scale into the filter's resonance input, while its
base parameter value (not the accumulated sum) is interpolated between
the fixed constants minus 24 dB and plus 24 dB and then converted from
decibels to linear magnitude into the filter's gain input. -/
theorem resonance_two_paths_spec (resScale magScale : ℚ → ℚ)
    (baseResonance modSum : ℚ) :
    final_resonance resScale baseResonance modSum =
      resScale (baseResonance + modSum) ∧
    final_gain magScale baseResonance =
      magScale (MIN_GAIN_DB + baseResonance * (MAX_GAIN_DB - MIN_GAIN_DB)) :=
  ⟨rfl, rfl⟩

/-- The osc_feedback_transposed node: bent MIDI plus the feedback
transpose. -/
def osc_feedback_transposed (bentMidi transpose : ℚ) : ℚ :=
  bentMidi + transpose

/-- The osc_feedback_midi node: transposed feedback MIDI plus the feedback
tune. -/
def osc_feedback_midi (bentMidi transpose tune : ℚ) : ℚ :=
  osc_feedback_transposed bentMidi transpose + tune

/-- The osc_feedback_frequency node: MidiScale of the feedback pitch. -/
def osc_feedback_frequency (midiScale : ℚ → ℚ)
    (bentMidi transpose tune : ℚ) : ℚ :=
  midiScale (osc_feedback_midi bentMidi transpose tune)

/-- The osc_feedback_period node: the Inverse processor, one over the
feedback frequency; this output is wired to the feedback Delay's
kDelayTime input. -/
def osc_feedback_period (midiScale : ℚ → ℚ)
    (bentMidi transpose tune : ℚ) : ℚ :=
  (osc_feedback_frequency midiScale bentMidi transpose tune)⁻¹

/-- Modelled from the spec: the Delay buffer has a hard maximum length
fixed at construction; a requested period longer than the buffer is
clamped to the maximum rather than read out of bounds. -/
def delayEffectivePeriod (maxSamples requested : ℚ) : ℚ :=
  min requested maxSamples

/-- The feedback Delay's kWet input, wired to the shared utils value_half
constant. -/
def osc_feedback_wet : ℚ := 1/2

/-- C4: the oscillator feedback delay's delay time is the exact inverse of
the frequency the feedback pitch path produces (bent MIDI plus feedback
transpose plus feedback tune, through MidiScale), its wet mix is fixed at
one half, and a requested period is clamped against the buffer's hard
maximum length fixed at construction: the effective period never exceeds
the maximum, a request beyond the maximum yields the maximum, and a
request within the maximum is honoured exactly. -/
theorem osc_feedback_delay_spec (midiScale : ℚ → ℚ)
    (bentMidi transpose tune req : ℚ) :
    osc_feedback_period midiScale bentMidi transpose tune =
      (midiScale (bentMidi + transpose + tune))⁻¹ ∧
    osc_feedback_wet = 1/2 ∧
    delayEffectivePeriod MAX_FEEDBACK_SAMPLES req ≤ MAX_FEEDBACK_SAMPLES ∧
    (MAX_FEEDBACK_SAMPLES ≤ req →
      delayEffectivePeriod MAX_FEEDBACK_SAMPLES req = MAX_FEEDBACK_SAMPLES) ∧
    (req ≤ MAX_FEEDBACK_SAMPLES →
      delayEffectivePeriod MAX_FEEDBACK_SAMPLES req = req) :=
  ⟨rfl, rfl, min_le_right _ _,
    fun h => min_eq_right h, fun h => min_eq_left h⟩

theorem osc_feedback_delay_spec_witness :
    MAX_FEEDBACK_SAMPLES ≤ (30000 : ℚ) ∧
    delayEffectivePeriod MAX_FEEDBACK_SAMPLES 30000 = MAX_FEEDBACK_SAMPLES ∧
    (1750 : ℚ) ≤ MAX_FEEDBACK_SAMPLES ∧
    delayEffectivePeriod MAX_FEEDBACK_SAMPLES 1750 = 1750 ∧
    osc_feedback_period (fun m => m) 48 (-12) 0 = ((48 : ℚ) + (-12) + 0)⁻¹ :=
  ⟨by norm_num [MAX_FEEDBACK_SAMPLES],
   (osc_feedback_delay_spec (fun m => m) 48 (-12) 0 30000).2.2.2.1
     (by norm_num [MAX_FEEDBACK_SAMPLES]),
   by norm_num [MAX_FEEDBACK_SAMPLES],
   (osc_feedback_delay_spec (fun m => m) 48 (-12) 0 1750).2.2.2.2
     (by norm_num [MAX_FEEDBACK_SAMPLES]),
   (osc_feedback_delay_spec (fun m => m) 48 (-12) 0 30000).1⟩

end mopo
